import Mathlib

/-
  Shallow embedding of the vblock user-space block device (src/main.rs,
  src/layout.rs, src/kernel.rs) for checking the natural-language spec.

  Machine integers are modelled as Nat with explicit `% 2^w` at the points
  where the Rust code can wrap (u64 shifts/adds, u32 shifts).  Release-mode
  (wrapping) semantics is modelled for the one u64 addition that could
  overflow.  Fallible operations return Except; the asynchronous ring and
  the ublk host framework are modelled as oracles (functions from call
  indices to results), and ring submissions are collected into traces.
-/

namespace Vblock

/-! ## Constants (src/main.rs lines 27-33, and libublk / kernel ABI values) -/

/-- Error code -libc::EINVAL (main.rs line 28). -/
def EINVAL : Int := -22

/-- Error code -libc::EAGAIN, the transient "try again" result (main.rs line 30). -/
def EAGAIN : Int := -11

/-- ublk opcode for READ (linux ublk_cmd.h, via libublk::sys). -/
def UBLK_IO_OP_READ : Nat := 0

/-- ublk opcode for WRITE (linux ublk_cmd.h, via libublk::sys). -/
def UBLK_IO_OP_WRITE : Nat := 1

/-- ublk opcode for FLUSH (linux ublk_cmd.h, via libublk::sys). -/
def UBLK_IO_OP_FLUSH : Nat := 2

/-- Abort sentinel returned by a fetch/commit command (-ENODEV, linux ublk_cmd.h). -/
def UBLK_IO_RES_ABORT : Int := -19

/-- Command opcode for the first fetch request of a tag (linux ublk_cmd.h, 0x20). -/
def UBLK_IO_FETCH_REQ : Nat := 32

/-- Command opcode committing the previous result and fetching the next request
(linux ublk_cmd.h, 0x21). -/
def UBLK_IO_COMMIT_AND_FETCH_REQ : Nat := 33

/-! ## Request descriptor (libublk::sys::ublksrv_io_desc, read-only to the core) -/

/-- The ublk request descriptor: op_flags is a u32 whose low 8 bits are the
opcode, nr_sectors a u32, start_sector a u64. -/
structure UblksrvIoDesc where
  op_flags : Nat
  nr_sectors : Nat
  start_sector : Nat
deriving DecidableEq, Repr

/-! ## Ring submissions (io_uring sqes built in submit_io_cmd) -/

/-- The three io_uring operation kinds built by `submit_io_cmd` (main.rs lines
310-357): SyncFileRange (for FLUSH), Read and Write. -/
inductive RingOp where
  | syncFileRange
  | read
  | write
deriving DecidableEq, Repr

/-- A ring submission-queue entry as built by `submit_io_cmd` (main.rs lines
310-357): an operation against the registered fixed file `types::Fixed(1)`,
with byte offset, byte length, buffer address (read/write only; none for
SyncFileRange, which takes no buffer) and the correlation token
`user_data`. -/
structure RingSqe where
  op : RingOp
  fd : Nat
  bufAddr : Option Nat
  len : Nat
  offset : Nat
  userData : Nat
deriving DecidableEq, Repr

/-! ## Correlation token (libublk UblkIOCtx::build_user_data_async) -/

/-- Modelled from the spec: the correlation token builder of the external host
framework library (libublk `UblkIOCtx::build_user_data`), an opaque value
bit-packing {tag, opcode, target-data, target-io marker}; the bit fields are
disjoint (tag < 2^16, op < 2^8 at every call site) so bitwise-or is addition. -/
def build_user_data (tag op tgt_data : Nat) (is_target_io : Bool) : Nat :=
  tag % 2 ^ 16 + op % 2 ^ 8 * 2 ^ 16 + tgt_data % 2 ^ 16 * 2 ^ 24 +
    (if is_target_io then 2 ^ 63 else 0)

/-- Modelled from the spec: libublk `UblkIOCtx::build_user_data_async`, which is
`build_user_data` with the target-io marker set. -/
def build_user_data_async (tag op tgt_data : Nat) : Nat :=
  build_user_data tag op tgt_data true

/-! ## Dispatch engine (src/main.rs lines 283-377) -/

/-- Embedding of `prep_io_cmd_submission` (main.rs lines 283-293): the opcode is
the low 8 bits of op_flags; FLUSH/READ/WRITE yield 0, anything else EINVAL. -/
def prep_io_cmd_submission (io_descriptor : UblksrvIoDesc) : Int :=
  let op := io_descriptor.op_flags % 2 ^ 8
  if op = UBLK_IO_OP_FLUSH ∨ op = UBLK_IO_OP_READ ∨ op = UBLK_IO_OP_WRITE then 0
  else EINVAL

/-- Embedding of `submit_io_cmd` (main.rs lines 295-358): computes
`off = (start_sector << 9) as u64 + (1 << 30)` (u64 shift drops high bits,
the addition wraps mod 2^64) and `bytes = (nr_sectors << 9) as u32` (u32
shift drops high bits), then pushes one sqe for FLUSH/READ/WRITE and none
otherwise.  Returns the list of sqes pushed to the ring. -/
def submit_io_cmd (buf_addr : Nat) (io_descriptor : UblksrvIoDesc) (data : Nat) :
    List RingSqe :=
  let op := io_descriptor.op_flags % 2 ^ 8
  let off := (io_descriptor.start_sector * 512 % 2 ^ 64 + 2 ^ 30) % 2 ^ 64
  let bytes := io_descriptor.nr_sectors * 512 % 2 ^ 32
  if op = UBLK_IO_OP_FLUSH then [⟨.syncFileRange, 1, none, bytes, off, data⟩]
  else if op = UBLK_IO_OP_READ then [⟨.read, 1, some buf_addr, bytes, off, data⟩]
  else if op = UBLK_IO_OP_WRITE then [⟨.write, 1, some buf_addr, bytes, off, data⟩]
  else []

/-- Embedding of the `for _ in 0..4` retry loop of `handle_io_cmd` (main.rs
lines 369-377).  `ring attempt` is the completion result awaited for the
given attempt index; `attempt_sqes` are the sqes pushed by one call to
`submit_io_cmd` (the code calls it with identical arguments each iteration).
Returns the final result and the concatenated trace of all sqes submitted. -/
def io_submit_loop (ring : Nat → Int) (attempt_sqes : List RingSqe) :
    Nat → Nat → Int × List RingSqe
  | _, 0 => (EAGAIN, [])
  | attempt, fuel + 1 =>
    let res := ring attempt
    if res ≠ EAGAIN then (res, attempt_sqes)
    else
      let rest := io_submit_loop ring attempt_sqes (attempt + 1) fuel
      (rest.1, attempt_sqes ++ rest.2)

/-- Embedding of `handle_io_cmd` (main.rs lines 360-377): reads the descriptor,
builds the correlation token once (`build_user_data_async(tag, op, 0)`),
validates the opcode, then runs up to 4 submit/await attempts, returning
EAGAIN if all attempts complete with EAGAIN.  Returns the final result
together with the trace of every sqe submitted to the ring. -/
def handle_io_cmd (ring : Nat → Int) (buf_addr tag : Nat)
    (iod : UblksrvIoDesc) : Int × List RingSqe :=
  let op := iod.op_flags % 2 ^ 8
  let user_data := build_user_data_async tag op 0
  let res := prep_io_cmd_submission iod
  if res < 0 then (res, [])
  else io_submit_loop ring (submit_io_cmd buf_addr iod user_data) 0 4

/-! ## Per-tag task of the queue handler (src/main.rs lines 231-247) -/

/-- An observable action of a tag's task: issuing a fetch / commit-and-fetch
command to the host framework (with the command opcode and the previous
result being committed), or submitting a sqe to the ring. -/
inductive TaskEvent where
  | fetch (cmdOp : Nat) (prevRes : Int)
  | sqe (s : RingSqe)
deriving DecidableEq, Repr

/-- The environment a tag's task runs against: `fetchRes i` is the host
framework's answer to the i-th fetch/commit command for this tag, `iod i`
the request descriptor available after the i-th fetch, `ring i` the ring
completion oracle used while handling iteration i's request. -/
structure QueueEnv where
  fetchRes : Nat → Int
  iod : Nat → UblksrvIoDesc
  ring : Nat → Nat → Int
  bufAddr : Nat
  tag : Nat

/-- Embedding of the per-tag async loop spawned by `queue_handler` (main.rs
lines 233-246), run for at most `fuel` iterations (the Rust loop is
unbounded): each iteration issues `submit_io_cmd(tag, cmd_op, buf_addr, res)`
to the host framework; on `UBLK_IO_RES_ABORT` the loop breaks, otherwise the
request is handled via `handle_io_cmd` and the loop continues with
`UBLK_IO_COMMIT_AND_FETCH_REQ` and the new result.  Returns the trace of
observable actions. -/
def tag_task (env : QueueEnv) (cmdOp : Nat) (res : Int) (iter : Nat) :
    Nat → List TaskEvent
  | 0 => []
  | fuel + 1 =>
    let cmd_res := env.fetchRes iter
    if cmd_res = UBLK_IO_RES_ABORT then [TaskEvent.fetch cmdOp res]
    else
      let hr := handle_io_cmd (env.ring iter) env.bufAddr env.tag (env.iod iter)
      TaskEvent.fetch cmdOp res :: (hr.2.map TaskEvent.sqe
        ++ tag_task env UBLK_IO_COMMIT_AND_FETCH_REQ hr.1 (iter + 1) fuel)

/-- A tag's task as started by `queue_handler`: the first command MUST be
`UBLK_IO_FETCH_REQ` with previous result 0. -/
def tag_task_run (env : QueueEnv) (fuel : Nat) : List TaskEvent :=
  tag_task env UBLK_IO_FETCH_REQ 0 0 fuel

/-- Number of fetch/commit commands issued in a trace. -/
def countFetch : List TaskEvent → Nat
  | [] => 0
  | TaskEvent.fetch _ _ :: rest => countFetch rest + 1
  | TaskEvent.sqe _ :: rest => countFetch rest

/-! ## Layout prober (src/layout.rs, src/kernel.rs) -/

/-- Identifier for ioctl on block devices (kernel.rs line 4). -/
def BLK_IOCTL_ID : Nat := 0x12

/-- Ioctl sequence number for BLKSSZGET (kernel.rs line 7). -/
def BLK_SSZGET_IOCTL_SEQNO : Nat := 104

/-- Ioctl sequence number for BLKGETSIZE64 (kernel.rs line 9). -/
def BLK_GETSIZE64_IOCTL_SEQNO : Nat := 114

/-- Ioctl sequence number for BLKIOMIN (kernel.rs line 11). -/
def BLK_IOMIN_IOCTL_SEQNO : Nat := 120

/-- Ioctl sequence number for BLKIOOPT (kernel.rs line 13). -/
def BLK_IOOPT_IOCTL_SEQNO : Nat := 121

/-- Ioctl sequence number for BLKPBSZGET (kernel.rs line 15). -/
def BLK_PBSZGET_IOCTL_SEQNO : Nat := 123

/-- An ioctl request code: the block ioctl identifier plus a sequence number. -/
structure IoctlReq where
  ioctlId : Nat
  seqno : Nat
deriving DecidableEq, Repr

/-- Request code of `ioctl_blksszget` (kernel.rs lines 17-22): the
logical-sector-size query. -/
def ioctl_blksszget_req : IoctlReq := ⟨BLK_IOCTL_ID, BLK_SSZGET_IOCTL_SEQNO⟩

/-- Request code of `ioctl_blkgetsize64` (kernel.rs lines 24-30). -/
def ioctl_blkgetsize64_req : IoctlReq := ⟨BLK_IOCTL_ID, BLK_GETSIZE64_IOCTL_SEQNO⟩

/-- Request code of `ioctl_blkiomin` (kernel.rs lines 32-37). -/
def ioctl_blkiomin_req : IoctlReq := ⟨BLK_IOCTL_ID, BLK_IOMIN_IOCTL_SEQNO⟩

/-- Request code of `ioctl_blkioopt` (kernel.rs lines 39-44). -/
def ioctl_blkioopt_req : IoctlReq := ⟨BLK_IOCTL_ID, BLK_IOOPT_IOCTL_SEQNO⟩

/-- Request code of `ioctl_blkpbszget` as declared in kernel.rs lines 46-51:
its documentation says "physical block size", but the declaration uses
`BLK_SSZGET_IOCTL_SEQNO` (104), not `BLK_PBSZGET_IOCTL_SEQNO` (123). -/
def ioctl_blkpbszget_req : IoctlReq := ⟨BLK_IOCTL_ID, BLK_SSZGET_IOCTL_SEQNO⟩

/-- File type of the probed target (std::fs::FileType as used in layout.rs:
block device, regular file, or anything else). -/
inductive TargetFileType where
  | blockDevice
  | regularFile
  | other
deriving DecidableEq, Repr

/-- The filesystem metadata of the target, as read by `target.metadata()`:
the file type, byte length (`meta.size()`) and filesystem I/O block size
(`meta.blksize()`). -/
structure TargetMetadata where
  fileType : TargetFileType
  size : Nat
  blksize : Nat
deriving DecidableEq, Repr

/-- The device layout (layout.rs lines 17-28). -/
structure Layout where
  size : Nat
  logical_block_size : Nat
  physical_block_size : Nat
  minimum_io_size : Nat
  optimal_io_size : Nat
deriving DecidableEq, Repr

/-- Errors of the layout prober (layout.rs lines 31-39); `QueryError` carries
the underlying nix errno, `IOError` the io::ErrorKind (as a numeric code). -/
inductive LayoutError where
  | UnsupportedDeviceType
  | IOError (kind : Nat)
  | QueryError (e : Int)
deriving DecidableEq, Repr

/-- The sequence of ioctl request codes issued by `Layout::new` for a block
device, in program order (layout.rs lines 56-60): size, physical block
size, logical block size, minimum I/O size, optimal I/O size. -/
def probeReq : Nat → IoctlReq
  | 0 => ioctl_blkgetsize64_req
  | 1 => ioctl_blkpbszget_req
  | 2 => ioctl_blksszget_req
  | 3 => ioctl_blkiomin_req
  | _ => ioctl_blkioopt_req

/-- Embedding of `Layout::new` (layout.rs lines 42-83).  `os i req` is the
operating system's answer to the i-th ioctl issued, with request code
`req` (an errno on failure); `metaRes` is the result of
`target.metadata()`.  Returns the probe result together with the trace of
ioctl request codes actually issued; every `?` early return is an explicit
match, so a failing query ends the probe immediately. -/
def Layout.new (os : Nat → IoctlReq → Except Int Nat)
    (metaRes : Except Nat TargetMetadata) :
    Except LayoutError Layout × List IoctlReq :=
  match metaRes with
  | .error kind => (.error (.IOError kind), [])
  | .ok md =>
    match md.fileType with
    | .blockDevice =>
      match os 0 ioctl_blkgetsize64_req with
      | .error e => (.error (.QueryError e), [probeReq 0])
      | .ok size =>
        match os 1 ioctl_blkpbszget_req with
        | .error e => (.error (.QueryError e), [probeReq 0, probeReq 1])
        | .ok physical_block_size =>
          match os 2 ioctl_blksszget_req with
          | .error e => (.error (.QueryError e), [probeReq 0, probeReq 1, probeReq 2])
          | .ok logical_block_size =>
            match os 3 ioctl_blkiomin_req with
            | .error e =>
              (.error (.QueryError e), [probeReq 0, probeReq 1, probeReq 2, probeReq 3])
            | .ok minimum_io_size =>
              match os 4 ioctl_blkioopt_req with
              | .error e =>
                (.error (.QueryError e),
                  [probeReq 0, probeReq 1, probeReq 2, probeReq 3, probeReq 4])
              | .ok optimal_io_size =>
                (.ok ⟨size, logical_block_size, physical_block_size,
                    minimum_io_size, optimal_io_size⟩,
                  [probeReq 0, probeReq 1, probeReq 2, probeReq 3, probeReq 4])
    | .regularFile =>
      (.ok ⟨md.size, md.blksize, md.blksize, 512, 0⟩, [])
    | .other => (.error .UnsupportedDeviceType, [])

/-- A geometry oracle describing a disk with 512-byte logical sectors and
4096-byte physical blocks: answers 512 to BLKSSZGET (seqno 104), 4096 to
BLKPBSZGET (seqno 123), 10^6 to BLKGETSIZE64, 4096 to BLKIOMIN and 0 to
everything else, independent of call order. -/
def mixedGeometryOracle : Nat → IoctlReq → Except Int Nat := fun _ req =>
  if req.seqno = BLK_GETSIZE64_IOCTL_SEQNO then .ok 1000000
  else if req.seqno = BLK_SSZGET_IOCTL_SEQNO then .ok 512
  else if req.seqno = BLK_PBSZGET_IOCTL_SEQNO then .ok 4096
  else if req.seqno = BLK_IOMIN_IOCTL_SEQNO then .ok 4096
  else .ok 0

/-- A queue environment whose host framework answers the third fetch command
(index 2) with the abort sentinel and everything else with 0, always serving
a small READ descriptor, over an always-successful ring. -/
def abortEnv : QueueEnv :=
  ⟨fun j => if j = 2 then UBLK_IO_RES_ABORT else 0,
   fun _ => ⟨UBLK_IO_OP_READ, 8, 0⟩, fun _ _ => 0, 0, 0⟩

/-! ## Helper lemmas about the dispatch engine -/

theorem mem_io_submit_loop (ring : Nat → Int) (l : List RingSqe) :
    ∀ (a f : Nat) (s : RingSqe), s ∈ (io_submit_loop ring l a f).2 → s ∈ l := by
  intro a f
  induction f generalizing a with
  | zero => intro s hs; simp [io_submit_loop] at hs
  | succ f ih =>
    intro s hs
    simp only [io_submit_loop] at hs
    split at hs
    · exact hs
    · rcases List.mem_append.mp hs with h | h
      · exact h
      · exact ih (a + 1) s h

theorem io_submit_loop_eagain (ring : Nat → Int) (l : List RingSqe)
    (hring : ∀ i, ring i = EAGAIN) :
    ∀ (a f : Nat), (io_submit_loop ring l a f).1 = EAGAIN ∧
      (io_submit_loop ring l a f).2.length = f * l.length := by
  intro a f
  induction f generalizing a with
  | zero => simp [io_submit_loop]
  | succ f ih =>
    simp only [io_submit_loop, hring a, ne_eq, not_true_eq_false, if_false,
      List.length_append]
    refine ⟨(ih (a + 1)).1, ?_⟩
    rw [(ih (a + 1)).2, Nat.succ_mul, Nat.add_comm]

theorem io_submit_loop_first_success (ring : Nat → Int) (l : List RingSqe)
    (a f : Nat) (h : ring a ≠ EAGAIN) :
    io_submit_loop ring l a (f + 1) = (ring a, l) := by
  simp only [io_submit_loop, h, ne_eq, not_false_eq_true, if_true]

theorem prep_io_cmd_submission_valid (d : UblksrvIoDesc)
    (hop : d.op_flags % 2 ^ 8 = UBLK_IO_OP_FLUSH ∨
      d.op_flags % 2 ^ 8 = UBLK_IO_OP_READ ∨
      d.op_flags % 2 ^ 8 = UBLK_IO_OP_WRITE) :
    prep_io_cmd_submission d = 0 := by
  simp only [prep_io_cmd_submission]
  rw [if_pos hop]

theorem prep_io_cmd_submission_invalid (d : UblksrvIoDesc)
    (hop : ¬(d.op_flags % 2 ^ 8 = UBLK_IO_OP_FLUSH ∨
      d.op_flags % 2 ^ 8 = UBLK_IO_OP_READ ∨
      d.op_flags % 2 ^ 8 = UBLK_IO_OP_WRITE)) :
    prep_io_cmd_submission d = EINVAL := by
  simp only [prep_io_cmd_submission]
  rw [if_neg hop]

theorem handle_io_cmd_valid (ring : Nat → Int) (buf_addr tag : Nat)
    (d : UblksrvIoDesc)
    (hop : d.op_flags % 2 ^ 8 = UBLK_IO_OP_FLUSH ∨
      d.op_flags % 2 ^ 8 = UBLK_IO_OP_READ ∨
      d.op_flags % 2 ^ 8 = UBLK_IO_OP_WRITE) :
    handle_io_cmd ring buf_addr tag d =
      io_submit_loop ring
        (submit_io_cmd buf_addr d
          (build_user_data_async tag (d.op_flags % 2 ^ 8) 0)) 0 4 := by
  simp only [handle_io_cmd, prep_io_cmd_submission_valid d hop]
  norm_num

theorem handle_io_cmd_invalid (ring : Nat → Int) (buf_addr tag : Nat)
    (d : UblksrvIoDesc)
    (hop : ¬(d.op_flags % 2 ^ 8 = UBLK_IO_OP_FLUSH ∨
      d.op_flags % 2 ^ 8 = UBLK_IO_OP_READ ∨
      d.op_flags % 2 ^ 8 = UBLK_IO_OP_WRITE)) :
    handle_io_cmd ring buf_addr tag d = (EINVAL, []) := by
  simp only [handle_io_cmd, prep_io_cmd_submission_invalid d hop]
  norm_num [EINVAL]

theorem submit_io_cmd_eq_flush (buf_addr : Nat) (d : UblksrvIoDesc) (data : Nat)
    (h : d.op_flags % 2 ^ 8 = UBLK_IO_OP_FLUSH) :
    submit_io_cmd buf_addr d data =
      [⟨.syncFileRange, 1, none, d.nr_sectors * 512 % 2 ^ 32,
        (d.start_sector * 512 % 2 ^ 64 + 2 ^ 30) % 2 ^ 64, data⟩] := by
  simp only [submit_io_cmd, h]
  rw [if_pos trivial]

theorem submit_io_cmd_eq_read (buf_addr : Nat) (d : UblksrvIoDesc) (data : Nat)
    (h : d.op_flags % 2 ^ 8 = UBLK_IO_OP_READ) :
    submit_io_cmd buf_addr d data =
      [⟨.read, 1, some buf_addr, d.nr_sectors * 512 % 2 ^ 32,
        (d.start_sector * 512 % 2 ^ 64 + 2 ^ 30) % 2 ^ 64, data⟩] := by
  simp only [submit_io_cmd, h]
  rw [if_neg (by decide), if_pos trivial]

theorem submit_io_cmd_eq_write (buf_addr : Nat) (d : UblksrvIoDesc) (data : Nat)
    (h : d.op_flags % 2 ^ 8 = UBLK_IO_OP_WRITE) :
    submit_io_cmd buf_addr d data =
      [⟨.write, 1, some buf_addr, d.nr_sectors * 512 % 2 ^ 32,
        (d.start_sector * 512 % 2 ^ 64 + 2 ^ 30) % 2 ^ 64, data⟩] := by
  simp only [submit_io_cmd, h]
  rw [if_neg (by decide), if_neg (by decide), if_pos trivial]

theorem submit_io_cmd_length (buf_addr : Nat) (d : UblksrvIoDesc) (data : Nat)
    (hop : d.op_flags % 2 ^ 8 = UBLK_IO_OP_FLUSH ∨
      d.op_flags % 2 ^ 8 = UBLK_IO_OP_READ ∨
      d.op_flags % 2 ^ 8 = UBLK_IO_OP_WRITE) :
    (submit_io_cmd buf_addr d data).length = 1 := by
  rcases hop with h | h | h
  · rw [submit_io_cmd_eq_flush buf_addr d data h]; rfl
  · rw [submit_io_cmd_eq_read buf_addr d data h]; rfl
  · rw [submit_io_cmd_eq_write buf_addr d data h]; rfl

theorem mem_submit_io_cmd (buf_addr : Nat) (d : UblksrvIoDesc) (data : Nat)
    (s : RingSqe) (hs : s ∈ submit_io_cmd buf_addr d data)
    (hop : d.op_flags % 2 ^ 8 = UBLK_IO_OP_FLUSH ∨
      d.op_flags % 2 ^ 8 = UBLK_IO_OP_READ ∨
      d.op_flags % 2 ^ 8 = UBLK_IO_OP_WRITE) :
    s.userData = data ∧
    s.offset = (d.start_sector * 512 % 2 ^ 64 + 2 ^ 30) % 2 ^ 64 ∧
    s.len = d.nr_sectors * 512 % 2 ^ 32 := by
  rcases hop with h | h | h
  · rw [submit_io_cmd_eq_flush buf_addr d data h, List.mem_singleton] at hs
    subst hs; exact ⟨rfl, rfl, rfl⟩
  · rw [submit_io_cmd_eq_read buf_addr d data h, List.mem_singleton] at hs
    subst hs; exact ⟨rfl, rfl, rfl⟩
  · rw [submit_io_cmd_eq_write buf_addr d data h, List.mem_singleton] at hs
    subst hs; exact ⟨rfl, rfl, rfl⟩

theorem submit_io_cmd_empty_of_invalid (buf_addr : Nat) (d : UblksrvIoDesc)
    (data : Nat)
    (hop : ¬(d.op_flags % 2 ^ 8 = UBLK_IO_OP_FLUSH ∨
      d.op_flags % 2 ^ 8 = UBLK_IO_OP_READ ∨
      d.op_flags % 2 ^ 8 = UBLK_IO_OP_WRITE)) :
    submit_io_cmd buf_addr d data = [] := by
  push_neg at hop
  simp only [submit_io_cmd]
  rw [if_neg hop.1, if_neg hop.2.1, if_neg hop.2.2]

theorem mem_handle_io_cmd (ring : Nat → Int) (buf_addr tag : Nat)
    (d : UblksrvIoDesc) (s : RingSqe)
    (hs : s ∈ (handle_io_cmd ring buf_addr tag d).2) :
    s ∈ submit_io_cmd buf_addr d
        (build_user_data_async tag (d.op_flags % 2 ^ 8) 0) ∧
      (d.op_flags % 2 ^ 8 = UBLK_IO_OP_FLUSH ∨
        d.op_flags % 2 ^ 8 = UBLK_IO_OP_READ ∨
        d.op_flags % 2 ^ 8 = UBLK_IO_OP_WRITE) := by
  by_cases hop : d.op_flags % 2 ^ 8 = UBLK_IO_OP_FLUSH ∨
      d.op_flags % 2 ^ 8 = UBLK_IO_OP_READ ∨
      d.op_flags % 2 ^ 8 = UBLK_IO_OP_WRITE
  · rw [handle_io_cmd_valid ring buf_addr tag d hop] at hs
    exact ⟨mem_io_submit_loop ring _ 0 4 s hs, hop⟩
  · rw [handle_io_cmd_invalid ring buf_addr tag d hop] at hs
    simp at hs

/-! ## Helper lemmas about the per-tag task -/

theorem countFetch_sqe_append (l : List RingSqe) (t : List TaskEvent) :
    countFetch (l.map TaskEvent.sqe ++ t) = countFetch t := by
  induction l with
  | nil => rfl
  | cons x xs ih => simpa [countFetch] using ih

theorem tag_task_abort (env : QueueEnv) (cmdOp : Nat) (res : Int) (iter : Nat)
    (fuel : Nat) (h : env.fetchRes iter = UBLK_IO_RES_ABORT) :
    tag_task env cmdOp res iter (fuel + 1) = [TaskEvent.fetch cmdOp res] := by
  simp only [tag_task, h, if_pos trivial]

theorem tag_task_step (env : QueueEnv) (cmdOp : Nat) (res : Int) (iter : Nat)
    (fuel : Nat) (h : env.fetchRes iter ≠ UBLK_IO_RES_ABORT) :
    tag_task env cmdOp res iter (fuel + 1) =
      TaskEvent.fetch cmdOp res ::
        ((handle_io_cmd (env.ring iter) env.bufAddr env.tag (env.iod iter)).2.map
            TaskEvent.sqe ++
          tag_task env UBLK_IO_COMMIT_AND_FETCH_REQ
            (handle_io_cmd (env.ring iter) env.bufAddr env.tag (env.iod iter)).1
            (iter + 1) fuel) := by
  simp only [tag_task, if_neg h]

theorem tag_task_stable (env : QueueEnv) :
    ∀ (k iter cmdOp : Nat) (res : Int),
      (∀ j, j < k → env.fetchRes (iter + j) ≠ UBLK_IO_RES_ABORT) →
      env.fetchRes (iter + k) = UBLK_IO_RES_ABORT →
      ∀ fuel, k < fuel →
        tag_task env cmdOp res iter fuel = tag_task env cmdOp res iter (k + 1) := by
  intro k
  induction k with
  | zero =>
    intro iter cmdOp res _ habort fuel hfuel
    match fuel, hfuel with
    | f + 1, _ =>
      rw [tag_task_abort env cmdOp res iter f (by simpa using habort),
        tag_task_abort env cmdOp res iter 0 (by simpa using habort)]
  | succ k ih =>
    intro iter cmdOp res hok habort fuel hfuel
    match fuel, hfuel with
    | f + 1, hfuel =>
      have hne : env.fetchRes iter ≠ UBLK_IO_RES_ABORT := by
        simpa using hok 0 (Nat.succ_pos k)
      rw [tag_task_step env cmdOp res iter f hne,
        tag_task_step env cmdOp res iter (k + 1) hne]
      have hok1 : ∀ j, j < k → env.fetchRes (iter + 1 + j) ≠ UBLK_IO_RES_ABORT := by
        intro j hj
        have := hok (j + 1) (Nat.succ_lt_succ hj)
        rwa [show iter + (j + 1) = iter + 1 + j by omega] at this
      have habort1 : env.fetchRes (iter + 1 + k) = UBLK_IO_RES_ABORT := by
        rwa [show iter + (k + 1) = iter + 1 + k by omega] at habort
      rw [ih (iter + 1) UBLK_IO_COMMIT_AND_FETCH_REQ _ hok1 habort1 f
        (Nat.lt_of_succ_lt_succ hfuel)]

theorem tag_task_countFetch (env : QueueEnv) :
    ∀ (k iter cmdOp : Nat) (res : Int),
      (∀ j, j < k → env.fetchRes (iter + j) ≠ UBLK_IO_RES_ABORT) →
      env.fetchRes (iter + k) = UBLK_IO_RES_ABORT →
      countFetch (tag_task env cmdOp res iter (k + 1)) = k + 1 := by
  intro k
  induction k with
  | zero =>
    intro iter cmdOp res _ habort
    rw [tag_task_abort env cmdOp res iter 0 (by simpa using habort)]
    rfl
  | succ k ih =>
    intro iter cmdOp res hok habort
    have hne : env.fetchRes iter ≠ UBLK_IO_RES_ABORT := by
      simpa using hok 0 (Nat.succ_pos k)
    rw [tag_task_step env cmdOp res iter (k + 1) hne]
    have hok1 : ∀ j, j < k → env.fetchRes (iter + 1 + j) ≠ UBLK_IO_RES_ABORT := by
      intro j hj
      have := hok (j + 1) (Nat.succ_lt_succ hj)
      rwa [show iter + (j + 1) = iter + 1 + j by omega] at this
    have habort1 : env.fetchRes (iter + 1 + k) = UBLK_IO_RES_ABORT := by
      rwa [show iter + (k + 1) = iter + 1 + k by omega] at habort
    simp only [countFetch, countFetch_sqe_append,
      ih (iter + 1) UBLK_IO_COMMIT_AND_FETCH_REQ _ hok1 habort1]

/-! ## Helper lemmas about the layout prober -/

theorem layout_new_query_failure (os : Nat → IoctlReq → Except Int Nat)
    (md : TargetMetadata) (e : Int) (i : Nat)
    (hft : md.fileType = .blockDevice) (hi : i < 5)
    (hok : ∀ j, j < i → ∃ v, os j (probeReq j) = .ok v)
    (hfail : os i (probeReq i) = .error e) :
    Layout.new os (.ok md) =
      (.error (.QueryError e), (List.range (i + 1)).map probeReq) := by
  interval_cases i
  · simp only [probeReq] at hfail
    simp only [Layout.new, hft, hfail]
    rfl
  · obtain ⟨v0, h0⟩ := hok 0 (by omega)
    simp only [probeReq] at h0 hfail
    simp only [Layout.new, hft, h0, hfail]
    rfl
  · obtain ⟨v0, h0⟩ := hok 0 (by omega)
    obtain ⟨v1, h1⟩ := hok 1 (by omega)
    simp only [probeReq] at h0 h1 hfail
    simp only [Layout.new, hft, h0, h1, hfail]
    rfl
  · obtain ⟨v0, h0⟩ := hok 0 (by omega)
    obtain ⟨v1, h1⟩ := hok 1 (by omega)
    obtain ⟨v2, h2⟩ := hok 2 (by omega)
    simp only [probeReq] at h0 h1 h2 hfail
    simp only [Layout.new, hft, h0, h1, h2, hfail]
    rfl
  · obtain ⟨v0, h0⟩ := hok 0 (by omega)
    obtain ⟨v1, h1⟩ := hok 1 (by omega)
    obtain ⟨v2, h2⟩ := hok 2 (by omega)
    obtain ⟨v3, h3⟩ := hok 3 (by omega)
    simp only [probeReq] at h0 h1 h2 h3 hfail
    simp only [Layout.new, hft, h0, h1, h2, h3, hfail]
    rfl

/-! ## Claim theorems -/

/-- C1: the spec claims every request whose logical sector is at or beyond the
vblock's allocated size S is rejected with OutOfRange (an invalid-argument
result) before any ring operation is submitted.  The code contains no such
bounds check: evaluating `handle_io_cmd` on a READ at start_sector 20971520
(the first sector at/beyond the 10 GiB device, dev_sectors = (10 << 30) >> 9)
over a succeeding ring submits one ring operation and returns the ring's
result 0 — it is not rejected with EINVAL and the ring is touched. -/
theorem c1_no_out_of_range_rejection :
    (handle_io_cmd (fun _ => 0) 0 0 ⟨UBLK_IO_OP_READ, 1, 20971520⟩).1 = 0 ∧
    (handle_io_cmd (fun _ => 0) 0 0 ⟨UBLK_IO_OP_READ, 1, 20971520⟩).2.length = 1 ∧
    (handle_io_cmd (fun _ => 0) 0 0 ⟨UBLK_IO_OP_READ, 1, 20971520⟩).1 ≠ EINVAL := by
  decide

/-- C2: if every ring completion returns the transient code EAGAIN, then for a
request with a supported opcode `handle_io_cmd` issues exactly 4 submission
attempts (each attempt pushes exactly one sqe, so the trace has length 4 —
never more, never fewer) and returns EAGAIN as the final result. -/
theorem c2_retry_bound (ring : Nat → Int) (buf_addr tag : Nat)
    (d : UblksrvIoDesc)
    (hring : ∀ i, ring i = EAGAIN)
    (hop : d.op_flags % 2 ^ 8 = UBLK_IO_OP_FLUSH ∨
      d.op_flags % 2 ^ 8 = UBLK_IO_OP_READ ∨
      d.op_flags % 2 ^ 8 = UBLK_IO_OP_WRITE) :
    (handle_io_cmd ring buf_addr tag d).2.length = 4 ∧
    (handle_io_cmd ring buf_addr tag d).1 = EAGAIN := by
  rw [handle_io_cmd_valid ring buf_addr tag d hop]
  have h := io_submit_loop_eagain ring
    (submit_io_cmd buf_addr d (build_user_data_async tag (d.op_flags % 2 ^ 8) 0))
    hring 0 4
  have hl := submit_io_cmd_length buf_addr d
    (build_user_data_async tag (d.op_flags % 2 ^ 8) 0) hop
  exact ⟨by rw [h.2, hl], h.1⟩

theorem c2_retry_bound_witness :
    (handle_io_cmd (fun _ => EAGAIN) 7 3 ⟨UBLK_IO_OP_READ, 8, 5⟩).2.length = 4 ∧
    (handle_io_cmd (fun _ => EAGAIN) 7 3 ⟨UBLK_IO_OP_READ, 8, 5⟩).1 = EAGAIN :=
  c2_retry_bound (fun _ => EAGAIN) 7 3 ⟨UBLK_IO_OP_READ, 8, 5⟩ (fun _ => rfl)
    (by decide)

/-- C3: a request descriptor whose opcode (low 8 bits of op_flags) is not
FLUSH, READ or WRITE makes `handle_io_cmd` return EINVAL with an empty ring
trace: zero operations are submitted. -/
theorem c3_invalid_opcode (ring : Nat → Int) (buf_addr tag : Nat)
    (d : UblksrvIoDesc)
    (hop : ¬(d.op_flags % 2 ^ 8 = UBLK_IO_OP_FLUSH ∨
      d.op_flags % 2 ^ 8 = UBLK_IO_OP_READ ∨
      d.op_flags % 2 ^ 8 = UBLK_IO_OP_WRITE)) :
    handle_io_cmd ring buf_addr tag d = (EINVAL, []) :=
  handle_io_cmd_invalid ring buf_addr tag d hop

theorem c3_invalid_opcode_witness :
    handle_io_cmd (fun _ => 0) 7 3 ⟨3, 8, 5⟩ = (EINVAL, []) :=
  c3_invalid_opcode (fun _ => 0) 7 3 ⟨3, 8, 5⟩ (by decide)

/-- C4 counterexample: the claim says no two submission attempts for the same
request reuse the same token.  On an always-EAGAIN ring a READ request makes
4 submission attempts, and all four carry the identical correlation token
`build_user_data_async tag op 0` — the token is computed once before the
retry loop (main.rs line 363), not fresh per attempt. -/
theorem c4_token_reused_counterexample :
    (handle_io_cmd (fun _ => EAGAIN) 0 0
        ⟨UBLK_IO_OP_READ, 1, 0⟩).2.map RingSqe.userData
      = List.replicate 4 (build_user_data_async 0 UBLK_IO_OP_READ 0) ∧
    2 ≤ (handle_io_cmd (fun _ => EAGAIN) 0 0 ⟨UBLK_IO_OP_READ, 1, 0⟩).2.length := by
  decide

/-- C4 amended: every sqe submitted for a request (across all its attempts,
retries included) carries the single per-request correlation token
`build_user_data_async tag (op_flags mod 256) 0`, created once per request
before the retry loop. -/
theorem c4_token_per_request (ring : Nat → Int) (buf_addr tag : Nat)
    (d : UblksrvIoDesc) :
    ∀ s ∈ (handle_io_cmd ring buf_addr tag d).2,
      s.userData = build_user_data_async tag (d.op_flags % 2 ^ 8) 0 := by
  intro s hs
  obtain ⟨hmem, hop⟩ := mem_handle_io_cmd ring buf_addr tag d s hs
  exact (mem_submit_io_cmd buf_addr d _ s hmem hop).1

theorem c4_token_per_request_witness :
    (⟨.read, 1, some 0, 512, 2 ^ 30, 2 ^ 63⟩ : RingSqe).userData
      = build_user_data_async 0
          ((⟨UBLK_IO_OP_READ, 1, 0⟩ : UblksrvIoDesc).op_flags % 2 ^ 8) 0 :=
  c4_token_per_request (fun _ => 0) 0 0 ⟨UBLK_IO_OP_READ, 1, 0⟩
    ⟨.read, 1, some 0, 512, 2 ^ 30, 2 ^ 63⟩ (by decide)

/-- C5: the spec claims the physical-block-size field is produced by the
BLKPBSZGET query (ioctl sequence number 123), distinct from the BLKSSZGET
logical-sector-size query (104).  In the code, `ioctl_blkpbszget` is declared
with `BLK_SSZGET_IOCTL_SEQNO` (104), not the defined-but-unused
`BLK_PBSZGET_IOCTL_SEQNO` (123): the second probe query equals the third
(both are BLKSSZGET), so on a disk whose kernel reports 512 for BLKSSZGET
and 4096 for BLKPBSZGET the probe fills physical_block_size with 512, and
the issued sequence numbers are [114, 104, 104, 120, 121]. -/
theorem c5_pbszget_wrong_seqno :
    ioctl_blkpbszget_req.seqno = BLK_SSZGET_IOCTL_SEQNO ∧
    BLK_PBSZGET_IOCTL_SEQNO = 123 ∧
    ioctl_blkpbszget_req.seqno ≠ BLK_PBSZGET_IOCTL_SEQNO ∧
    ioctl_blkpbszget_req = ioctl_blksszget_req ∧
    (Layout.new mixedGeometryOracle (.ok ⟨.blockDevice, 0, 0⟩)).1 =
      .ok ⟨1000000, 512, 512, 4096, 0⟩ ∧
    (Layout.new mixedGeometryOracle
        (.ok ⟨.blockDevice, 0, 0⟩)).2.map IoctlReq.seqno =
      [114, 104, 104, 120, 121] :=
  ⟨rfl, rfl, by decide, rfl, rfl, rfl⟩

/-- C6: probing a regular-file target of byte length L with filesystem I/O
block size B succeeds with Layout {size L, logical B, physical B,
minimum_io_size 512, optimal_io_size 0}, issuing no geometry queries. -/
theorem c6_regular_file_fallback (os : Nat → IoctlReq → Except Int Nat)
    (md : TargetMetadata) (hft : md.fileType = .regularFile) :
    Layout.new os (.ok md) =
      (.ok ⟨md.size, md.blksize, md.blksize, 512, 0⟩, []) := by
  simp only [Layout.new, hft]

theorem c6_regular_file_fallback_witness :
    Layout.new (fun _ _ => .ok 0) (.ok ⟨.regularFile, 1000, 4096⟩) =
      (.ok ⟨1000, 4096, 4096, 512, 0⟩, []) :=
  c6_regular_file_fallback (fun _ _ => .ok 0) ⟨.regularFile, 1000, 4096⟩ rfl

/-- C7 counterexample: the claim says the submitted offset equals
start_sector * 512 + 2^30 for every start_sector.  At start_sector 2^55 the
u64 computation (start_sector << 9) wraps to 0, so the submitted offset is
2^30, which differs from 2^55 * 512 + 2^30 (= 2^64 + 2^30). -/
theorem c7_offset_wrap_counterexample :
    (handle_io_cmd (fun _ => 0) 0 0
        ⟨UBLK_IO_OP_READ, 1, 2 ^ 55⟩).2.map RingSqe.offset = [2 ^ 30] ∧
    (2 ^ 30 : Nat) ≠ 2 ^ 55 * 512 + 2 ^ 30 := by
  decide

/-- C7 amended: for every request whose mathematical offset
start_sector * 512 + 2^30 fits in a u64, every sqe submitted for it carries
exactly that backing byte offset (extent base 2^30, 512-byte logical
blocks); beyond that bound the u64 computation wraps modulo 2^64. -/
theorem c7_offset_formula (ring : Nat → Int) (buf_addr tag : Nat)
    (d : UblksrvIoDesc)
    (hbound : d.start_sector * 512 + 2 ^ 30 < 2 ^ 64) :
    ∀ s ∈ (handle_io_cmd ring buf_addr tag d).2,
      s.offset = d.start_sector * 512 + 2 ^ 30 := by
  intro s hs
  obtain ⟨hmem, hop⟩ := mem_handle_io_cmd ring buf_addr tag d s hs
  have h := (mem_submit_io_cmd buf_addr d _ s hmem hop).2.1
  rw [h, Nat.mod_eq_of_lt (lt_of_le_of_lt (Nat.le_add_right _ _) hbound),
    Nat.mod_eq_of_lt hbound]

theorem c7_offset_formula_witness :
    (⟨.read, 1, some 0, 512, 5 * 512 + 2 ^ 30, 2 ^ 63⟩ : RingSqe).offset
      = (⟨UBLK_IO_OP_READ, 1, 5⟩ : UblksrvIoDesc).start_sector * 512 + 2 ^ 30 :=
  c7_offset_formula (fun _ => 0) 0 0 ⟨UBLK_IO_OP_READ, 1, 5⟩ (by decide)
    ⟨.read, 1, some 0, 512, 5 * 512 + 2 ^ 30, 2 ^ 63⟩ (by decide)

/-- C8: for a block-device target, if the i-th geometry query fails with
errno e while all earlier queries succeed, the probe returns QueryError e
with no Layout, and the issued-query trace is exactly the first i+1 queries
of the probe sequence — none of the remaining queries is issued. -/
theorem c8_query_failure_aborts (os : Nat → IoctlReq → Except Int Nat)
    (md : TargetMetadata) (e : Int) (i : Nat)
    (hft : md.fileType = .blockDevice) (hi : i < 5)
    (hok : ∀ j, j < i → ∃ v, os j (probeReq j) = .ok v)
    (hfail : os i (probeReq i) = .error e) :
    Layout.new os (.ok md) =
      (.error (.QueryError e), (List.range (i + 1)).map probeReq) :=
  layout_new_query_failure os md e i hft hi hok hfail

theorem c8_query_failure_aborts_witness :
    Layout.new (fun j _ => if j = 0 then Except.ok 4096 else Except.error (-5))
        (.ok ⟨.blockDevice, 0, 0⟩) =
      (.error (.QueryError (-5)), (List.range 2).map probeReq) :=
  c8_query_failure_aborts
    (fun j _ => if j = 0 then Except.ok 4096 else Except.error (-5))
    ⟨.blockDevice, 0, 0⟩ (-5) 1 rfl (by omega)
    (by intro j hj; interval_cases j; exact ⟨4096, rfl⟩) rfl

/-- C9: once the fetch-or-commit command for a tag returns the abort sentinel
(at iteration i, the first abort), the tag's task stops permanently: however
much further the loop could run (any fuel > i), the observable trace is
unchanged from the trace that ends at the abort, and exactly i+1
fetch/commit commands are ever issued — the aborting one is the last, and no
ring submission follows it. -/
theorem c9_abort_stops_task (env : QueueEnv) (i : Nat)
    (h1 : ∀ j, j < i → env.fetchRes j ≠ UBLK_IO_RES_ABORT)
    (h2 : env.fetchRes i = UBLK_IO_RES_ABORT)
    (fuel : Nat) (hfuel : i < fuel) :
    tag_task_run env fuel = tag_task_run env (i + 1) ∧
    countFetch (tag_task_run env fuel) = i + 1 := by
  have h1z : ∀ j, j < i → env.fetchRes (0 + j) ≠ UBLK_IO_RES_ABORT := by
    intro j hj; simpa using h1 j hj
  have h2z : env.fetchRes (0 + i) = UBLK_IO_RES_ABORT := by simpa using h2
  have hs := tag_task_stable env i 0 UBLK_IO_FETCH_REQ 0 h1z h2z fuel hfuel
  refine ⟨hs, ?_⟩
  show countFetch (tag_task env UBLK_IO_FETCH_REQ 0 0 fuel) = i + 1
  rw [hs]
  exact tag_task_countFetch env i 0 UBLK_IO_FETCH_REQ 0 h1z h2z

theorem c9_abort_stops_task_witness :
    tag_task_run abortEnv 10 = tag_task_run abortEnv 3 ∧
    countFetch (tag_task_run abortEnv 10) = 3 :=
  c9_abort_stops_task abortEnv 2
    (by intro j hj; interval_cases j <;> decide) (by decide) 10 (by decide)

/-- C10: for READ/WRITE requests the byte length handed to the ring is
(nr_sectors * 512) mod 2^32, computed in 32-bit arithmetic; for any
nr_sectors ≥ 2^23 the submitted length is strictly smaller than the true
byte count (it silently wrapped), yet with a succeeding ring the request
still completes with result 0 and one ring submission — no error is
reported. -/
theorem c10_length_wrap (ring : Nat → Int) (buf_addr tag : Nat)
    (d : UblksrvIoDesc)
    (hop : d.op_flags % 2 ^ 8 = UBLK_IO_OP_READ ∨
      d.op_flags % 2 ^ 8 = UBLK_IO_OP_WRITE)
    (hsec : 2 ^ 23 ≤ d.nr_sectors) :
    (∀ s ∈ (handle_io_cmd ring buf_addr tag d).2,
      s.len = d.nr_sectors * 512 % 2 ^ 32 ∧ s.len < d.nr_sectors * 512) ∧
    (handle_io_cmd (fun _ => 0) buf_addr tag d).1 = 0 ∧
    (handle_io_cmd (fun _ => 0) buf_addr tag d).2.length = 1 := by
  have hop3 : d.op_flags % 2 ^ 8 = UBLK_IO_OP_FLUSH ∨
      d.op_flags % 2 ^ 8 = UBLK_IO_OP_READ ∨
      d.op_flags % 2 ^ 8 = UBLK_IO_OP_WRITE :=
    hop.elim (fun h => Or.inr (Or.inl h)) (fun h => Or.inr (Or.inr h))
  have hwrap : d.nr_sectors * 512 % 2 ^ 32 < d.nr_sectors * 512 := by
    have h32 : d.nr_sectors * 512 % 2 ^ 32 < 2 ^ 32 :=
      Nat.mod_lt _ (by norm_num)
    have hge : 2 ^ 32 ≤ d.nr_sectors * 512 := by
      calc (2 : Nat) ^ 32 = 2 ^ 23 * 512 := by norm_num
      _ ≤ d.nr_sectors * 512 := Nat.mul_le_mul_right 512 hsec
    exact lt_of_lt_of_le h32 hge
  refine ⟨?_, ?_, ?_⟩
  · intro s hs
    obtain ⟨hmem, _⟩ := mem_handle_io_cmd ring buf_addr tag d s hs
    have h := (mem_submit_io_cmd buf_addr d _ s hmem hop3).2.2
    exact ⟨h, h ▸ hwrap⟩
  · rw [handle_io_cmd_valid (fun _ => 0) buf_addr tag d hop3,
      show (4 : Nat) = 3 + 1 from rfl,
      io_submit_loop_first_success (fun _ => 0) _ 0 3 (by decide)]
  · rw [handle_io_cmd_valid (fun _ => 0) buf_addr tag d hop3,
      show (4 : Nat) = 3 + 1 from rfl,
      io_submit_loop_first_success (fun _ => 0) _ 0 3 (by decide)]
    exact submit_io_cmd_length buf_addr d _ hop3

theorem c10_length_wrap_witness :
    (⟨.read, 1, some 0, 0, 2 ^ 30, 2 ^ 63⟩ : RingSqe).len
        = (2 ^ 23) * 512 % 2 ^ 32 ∧
    (⟨.read, 1, some 0, 0, 2 ^ 30, 2 ^ 63⟩ : RingSqe).len < (2 ^ 23) * 512 ∧
    (handle_io_cmd (fun _ => 0) 0 0 ⟨UBLK_IO_OP_READ, 2 ^ 23, 0⟩).1 = 0 ∧
    (handle_io_cmd (fun _ => 0) 0 0 ⟨UBLK_IO_OP_READ, 2 ^ 23, 0⟩).2.length = 1 := by
  have h := c10_length_wrap (fun _ => 0) 0 0 ⟨UBLK_IO_OP_READ, 2 ^ 23, 0⟩
    (by decide) (by decide)
  have hm := h.1 ⟨.read, 1, some 0, 0, 2 ^ 30, 2 ^ 63⟩ (by decide)
  exact ⟨hm.1, hm.2, h.2.1, h.2.2⟩

end Vblock
